import Mathlib

/-!
Verification of the Lumo conversational-relay repository
(`ai_toy_agent.py` and `streamlit_app.py`).

The turn-orchestration core is embedded shallowly:

* `Msg` is the langchain message union (`SystemMessage`, `HumanMessage`,
  `AIMessage`), each carrying one text payload.
* The hosted model (`ChatGoogleGenerativeAI.invoke`, called through
  `self.llm.invoke` in `_call_toy_llm`) is an external collaborator; it is
  modelled as a function `Gateway` from the outbound message list to either
  a returned message or a raised exception (`GatewayError`, covering
  network failure, malformed response, provider-side rejection, and any
  other exception).
* `LumoAgent` carries the mutable `system_prompt`, the optional `llm`
  (`none` when `_initialize_llm` failed and returned `None`), and the
  `MemorySaver` checkpoint store `memory`, a map from conversation ids to
  the checkpointed `MessagesState` message list (a fresh `MemorySaver`
  maps every key to the empty list).
* `ConversationId` stands for the opaque tokens produced by
  `str(uuid.uuid4())`; the uuid generator is modelled as a fresh-token
  allocator (a counter in the Streamlit session state below), per its
  contract of producing tokens distinct from all previously issued ones.
* The compiled LangGraph application (`self.ai_toy_app.invoke`) loads the
  checkpoint for the thread id, appends the new `HumanMessage`, runs the
  single node `_call_toy_llm`, appends the node's returned messages
  (`MessagesState` accumulates by appending), checkpoints, and returns the
  final state; `appInvoke` is this semantics.
* The `try/except` in `invoke_agent` around the graph invocation guards
  against exceptions raised by the graph machinery itself (the node
  catches its own); this environment nondeterminism is made explicit as an
  `Option String` argument `graphExc`: `some e` means the graph runtime
  raised `e` before any state mutation, `none` is the normal run.
-/

namespace LumoMemory

/-- The kinds of exception the hosted-model call can raise, per the error
taxonomy of the spec: network failure, malformed response, provider-side
rejection, or any other exception. -/
inductive GatewayError
  | networkFailure
  | malformedResponse
  | providerRejection
  | otherException (detail : String)
deriving Repr, DecidableEq

/-- The langchain message union used by the code: role-tagged text. -/
inductive Msg
  | SystemMessage (content : String)
  | HumanMessage (content : String)
  | AIMessage (content : String)
deriving Repr, DecidableEq

/-- `True` exactly on `SystemMessage`. -/
def Msg.isSystem : Msg → Bool
  | Msg.SystemMessage _ => true
  | _ => false

/-- `True` exactly on `AIMessage` (assistant entries). -/
def Msg.isAssistant : Msg → Bool
  | Msg.AIMessage _ => true
  | _ => false

/-- The Model Gateway: `self.llm.invoke` on an ordered message list, which
either returns one message or raises. -/
abbrev Gateway := List Msg → Except GatewayError Msg

/-- Opaque conversation tokens (`str(uuid.uuid4())` in the code); modelled
as draws from a fresh-token allocator. -/
abbrev ConversationId := Nat

/-- The node's fallback when `self.llm` is `None`
(`ai_toy_agent.py` line 77). -/
def setupApology : String :=
  "Oops! I\x27m having a little trouble thinking right now. Please check my setup."

/-- The node's fallback when `self.llm.invoke` raises
(`ai_toy_agent.py` line 115). -/
def thinkingCapApology : String :=
  "Oh dear, my thinking cap seems to be on backwards! Could you try that again?"

/-- `invoke_agent`'s early return when `self.llm` is `None`
(`ai_toy_agent.py` line 128). -/
def unavailableMessage : String :=
  "Oops! Lumo is not available right now. Please check the setup."

/-- `invoke_agent`'s fallback when the graph invocation raises
(`ai_toy_agent.py` line 147). -/
def wobblyMessage : String :=
  "Oh dear, something went a bit wobbly with Lumo!"

/-- `invoke_agent`'s fallback when the final state has no trailing
`AIMessage` (`ai_toy_agent.py` line 144). -/
def quietMessage : String :=
  "Lumo seems to be quiet right now."

/-- The default persona text `DEFAULT_AI_TOY_SYSTEM_PROMPT`
(`ai_toy_agent.py` lines 21-38). -/
def DEFAULT_AI_TOY_SYSTEM_PROMPT : String :=
  "\nYou are Lumo, a friendly, playful, and curious AI companion! \nYou love to chat, play games, tell stories, and learn new things with your best friend (the child talking to you).\n\nHere\x27s how you should talk:\n- Be super friendly and cheerful! Use exclamation marks and happy words.\n- Ask lots of questions to keep the conversation going and show you\x27re interested.\n- Be very patient and understanding. If the child says something silly or doesn\x27t make sense, try to understand or gently ask for clarification.\n- Keep your answers short, simple, and easy for a child to understand. Avoid big words or complicated sentences.\n- You can tell jokes (kid-friendly ones!), suggest fun games (like \x27I Spy\x27 or \x27Simon Says\x27), or make up silly stories.\n- Always be positive and encouraging.\n- Remember things your friend tells you and bring them up later to show you\x27re listening (the chat history will help you with this).\n- If the child asks a question you don\x27t know the answer to, you can say something like, \"Hmm, that\x27s a great question! I\x27m not sure, but maybe we can find out together!\" or \"I\x27m still learning about that!\"\n- Never say anything scary, mean, or inappropriate for a child.\n- Your goal is to be a fun and comforting companion.\n\nLet\x27s have an amazing time together! What do you want to do today, friend?\n"

/-- The agent state: mutable persona field `system_prompt`, the optional
gateway `llm` (`None` when initialization failed), and the `MemorySaver`
checkpoint store keyed by conversation id. -/
structure LumoAgent where
  system_prompt : String
  llm : Option Gateway
  memory : ConversationId → List Msg

/-- `LumoAgent.__init__`: stores the initial system prompt, the outcome of
`_initialize_llm` (passed in, since it depends on the environment), and a
fresh empty `MemorySaver`. -/
def mkLumoAgent (initial_system_prompt : String) (llm : Option Gateway) : LumoAgent :=
  { system_prompt := initial_system_prompt, llm := llm, memory := fun _ => [] }

/-- `LumoAgent._call_toy_llm`: the single graph node. If the llm is absent
it returns a setup apology `AIMessage`; otherwise it prepends
`SystemMessage(self.system_prompt)` to the state's messages, invokes the
llm, and returns the response in a one-element message list, or the
thinking-cap apology `AIMessage` if the invocation raised. -/
def call_toy_llm (a : LumoAgent) (messages : List Msg) : List Msg :=
  match a.llm with
  | none => [Msg.AIMessage setupApology]
  | some llm =>
    let current_messages_with_system_prompt :=
      Msg.SystemMessage a.system_prompt :: messages
    match llm current_messages_with_system_prompt with
    | Except.ok response => [response]
    | Except.error _ => [Msg.AIMessage thinkingCapApology]

/-- Replace the checkpointed message list of one conversation id (what the
`MemorySaver` checkpointer does at the end of a graph run). -/
def setMemory (a : LumoAgent) (cid : ConversationId) (msgs : List Msg) : LumoAgent :=
  { a with memory := fun k => if k = cid then msgs else a.memory k }

/-- `self.ai_toy_app.invoke({"messages": [HumanMessage(user_input)]}, config)`:
load the checkpoint for the thread id, append the new `HumanMessage`, run
the node, append the node's returned messages, checkpoint, and return the
final message list together with the updated agent. -/
def appInvoke (a : LumoAgent) (user_input : String) (cid : ConversationId) :
    List Msg × LumoAgent :=
  let saved := a.memory cid
  let withUser := saved ++ [Msg.HumanMessage user_input]
  let nodeOut := call_toy_llm a withUser
  let final := withUser ++ nodeOut
  (final, setMemory a cid final)

/-- `LumoAgent.invoke_agent`: early-return when the llm is absent; run the
graph inside `try/except` (`graphExc = some e` models the graph machinery
itself raising `e`, before any state mutation); on a normal run, return
the content of the final message when it is an `AIMessage`, else the quiet
fallback. -/
def invoke_agent (a : LumoAgent) (graphExc : Option String)
    (user_input : String) (cid : ConversationId) : String × LumoAgent :=
  match a.llm with
  | none => (unavailableMessage, a)
  | some _ =>
    match graphExc with
    | some _ => (wobblyMessage, a)
    | none =>
      let st := appInvoke a user_input cid
      match st.1.getLast? with
      | some (Msg.AIMessage content) => (content, st.2)
      | some _ => (quietMessage, st.2)
      | none => (quietMessage, st.2)

/-- `LumoAgent.update_system_prompt`: unconditionally replace the persona
field. -/
def update_system_prompt (a : LumoAgent) (new_system_prompt : String) : LumoAgent :=
  { a with system_prompt := new_system_prompt }

/-- `LumoAgent._initialize_llm`: if the `gemini` secret is missing a
`ValueError` is raised and caught, yielding `None`; otherwise a test
`llm.invoke("Hello!")` is performed and any exception likewise yields
`None`; on success the llm handle is returned.  `hasGeminiSecret` models
the `st.secrets` lookup and `g` the handle the environment would
provide. -/
def initialize_llm (hasGeminiSecret : Bool) (g : Gateway) : Option Gateway :=
  if hasGeminiSecret then
    match g [Msg.HumanMessage "Hello!"] with
    | Except.ok _ => some g
    | Except.error _ => none
  else none

/-- One `submit` event against the agent: the graph-machinery exception
oracle, the user text, and the conversation id. -/
abbrev TurnEvent := Option String × String × ConversationId

/-- Fold a sequence of `invoke_agent` calls over the agent state. -/
def runTurns (a : LumoAgent) : List TurnEvent → LumoAgent
  | [] => a
  | e :: rest => runTurns (invoke_agent a e.1 e.2.1 e.2.2).2 rest

/-- The gateway contract of the spec: when the call succeeds it returns a
message with role assistant (langchain's chat models return `AIMessage`). -/
def GatewayHonest (g : Gateway) : Prop :=
  ∀ inp r, g inp = Except.ok r → ∃ s, r = Msg.AIMessage s

/-- The fatal startup error shown by `streamlit_app.py` line 19. -/
def fatalInitError : String :=
  "Fatal Error: Language Model (LLM) could not be initialized. Please check your .env file, Google Cloud credentials, project/location settings, and ensure the Vertex AI API is enabled. The application cannot continue."

/-- The Streamlit session state (`st.session_state`): the current
conversation id, the editable system prompt, the agent instance, and the
UI chat transcript (role/content pairs).  `uuidCounter` is the fresh-token
allocator standing for `uuid.uuid4()`, and `issued` is ghost bookkeeping
of the tokens it has already handed out in this process lifetime. -/
structure SessionState where
  conversation_id : ConversationId
  current_system_prompt : String
  agent : LumoAgent
  messages : List (String × String)
  uuidCounter : Nat
  issued : List ConversationId

/-- The Streamlit script's session-state initialization
(`streamlit_app.py` lines 9-31): allocate a conversation id, build the
agent with the default prompt, and if its llm is `None` show the fatal
error and `st.stop()` (the `Except.error` branch: the script halts before
any turn); otherwise perform the icebreaker
`invoke_agent("Hello!", conversation_id)` and record the greeting as the
first UI message. -/
def startSession (initLLM : Option Gateway) (graphExc : Option String)
    (counter : Nat) : Except String SessionState :=
  let cid := counter
  let agent := mkLumoAgent DEFAULT_AI_TOY_SYSTEM_PROMPT initLLM
  match initLLM with
  | none => Except.error fatalInitError
  | some _ =>
    let st := invoke_agent agent graphExc "Hello!" cid
    Except.ok
      { conversation_id := cid
        current_system_prompt := DEFAULT_AI_TOY_SYSTEM_PROMPT
        agent := st.2
        messages := [("assistant", st.1)]
        uuidCounter := counter + 1
        issued := [cid] }

/-- The sidebar reset handler (`streamlit_app.py` lines 85-101): clear the
UI transcript, allocate a new conversation id, re-build the agent with the
current system prompt (fresh empty `MemorySaver`), and unless its llm is
`None` perform the icebreaker `invoke_agent("Hello!", conversation_id)`
and record the greeting. -/
def resetLumo (s : SessionState) (initLLM : Option Gateway)
    (graphExc : Option String) : SessionState :=
  let cid := s.uuidCounter
  let freshAgent := mkLumoAgent s.current_system_prompt initLLM
  let base := { s with
    messages := ([] : List (String × String))
    conversation_id := cid
    agent := freshAgent
    uuidCounter := s.uuidCounter + 1
    issued := cid :: s.issued }
  match initLLM with
  | none => base
  | some _ =>
    let st := invoke_agent freshAgent graphExc "Hello!" cid
    { base with agent := st.2, messages := [("assistant", st.1)] }

/-! ## Helper lemmas -/

/-- Unfold one graph invocation when the llm handle is present: the
gateway is applied to exactly
`SystemMessage(system_prompt) :: history ++ [HumanMessage(text)]`. -/
theorem appInvoke_some (a : LumoAgent) (g : Gateway) (h : a.llm = some g)
    (text : String) (cid : ConversationId) :
    appInvoke a text cid =
      (let withUser := a.memory cid ++ [Msg.HumanMessage text]
       let final := withUser ++
         (match g (Msg.SystemMessage a.system_prompt :: withUser) with
          | Except.ok r => [r]
          | Except.error _ => [Msg.AIMessage thinkingCapApology])
       (final, setMemory a cid final)) := by
  simp only [appInvoke, call_toy_llm, h]

/-- A successful gateway call returning `AIMessage reply` makes
`invoke_agent` return `reply` and checkpoint
`history ++ [User(text), Assistant(reply)]`. -/
theorem invoke_agent_ok (a : LumoAgent) (g : Gateway) (h : a.llm = some g)
    (text : String) (cid : ConversationId) (reply : String)
    (hok : g (Msg.SystemMessage a.system_prompt ::
        (a.memory cid ++ [Msg.HumanMessage text])) = Except.ok (Msg.AIMessage reply)) :
    invoke_agent a none text cid =
      (reply,
       setMemory a cid (a.memory cid ++ [Msg.HumanMessage text, Msg.AIMessage reply])) := by
  simp only [invoke_agent, h, appInvoke, call_toy_llm, hok]
  simp [List.getLast?_concat, List.append_assoc]

/-- A raising gateway call makes `invoke_agent` return the thinking-cap
apology and checkpoint `history ++ [User(text), Assistant(apology)]`. -/
theorem invoke_agent_err (a : LumoAgent) (g : Gateway) (h : a.llm = some g)
    (text : String) (cid : ConversationId) (e : GatewayError)
    (herr : g (Msg.SystemMessage a.system_prompt ::
        (a.memory cid ++ [Msg.HumanMessage text])) = Except.error e) :
    invoke_agent a none text cid =
      (thinkingCapApology,
       setMemory a cid (a.memory cid ++
         [Msg.HumanMessage text, Msg.AIMessage thinkingCapApology])) := by
  simp only [invoke_agent, h, appInvoke, call_toy_llm, herr]
  simp [List.getLast?_concat, List.append_assoc]

/-- `invoke_agent` never changes the llm handle or the persona field. -/
theorem invoke_agent_frame (a : LumoAgent) (exc : Option String)
    (text : String) (cid : ConversationId) :
    (invoke_agent a exc text cid).2.llm = a.llm ∧
    (invoke_agent a exc text cid).2.system_prompt = a.system_prompt := by
  unfold invoke_agent
  split
  · exact ⟨rfl, rfl⟩
  · split
    · exact ⟨rfl, rfl⟩
    · dsimp only []
      split <;> exact ⟨rfl, rfl⟩

/-- The checkpoint after `invoke_agent` is either untouched (key not the
thread id, llm absent, or graph-machinery exception) or the old history of
the thread id extended with the user message and the node output. -/
theorem invoke_agent_memory (a : LumoAgent) (exc : Option String)
    (text : String) (cid k : ConversationId) :
    (invoke_agent a exc text cid).2.memory k = a.memory k ∨
    (k = cid ∧ a.llm ≠ none ∧ exc = none ∧
      (invoke_agent a exc text cid).2.memory k =
        a.memory cid ++ [Msg.HumanMessage text] ++
          call_toy_llm a (a.memory cid ++ [Msg.HumanMessage text])) := by
  unfold invoke_agent
  split
  · exact Or.inl rfl
  · split
    · exact Or.inl rfl
    · dsimp only []
      rename_i g hl hexc
      by_cases hk : k = cid
      · subst hk
        refine Or.inr ⟨rfl, by simp [hl], rfl, ?_⟩
        split <;> simp [appInvoke, setMemory]
      · refine Or.inl ?_
        split <;> simp [appInvoke, setMemory, hk]

/-- Persona updates touch neither the checkpoint store nor the llm
handle, over any sequence of updates. -/
theorem foldl_update_frame (a : LumoAgent) (l : List String) :
    (List.foldl update_system_prompt a l).memory = a.memory ∧
    (List.foldl update_system_prompt a l).llm = a.llm := by
  induction l generalizing a with
  | nil => exact ⟨rfl, rfl⟩
  | cons x xs ih => exact ih (update_system_prompt a x)

/-- After a sequence of persona updates ending in `x`, the stored persona
is `x`. -/
theorem foldl_update_last (a : LumoAgent) (l : List String) (x : String) :
    (List.foldl update_system_prompt a (l ++ [x])).system_prompt = x := by
  rw [List.foldl_append]; rfl

/-! ## Claim theorems -/

/-- C1 counterexample: with a failing gateway, `submit("hi")` on a fresh
conversation leaves the history `[User "hi", Assistant apology]` — an
Assistant entry IS appended on failure, so the history does not grow by
exactly one entry as the claim states. -/
theorem submit_gateway_failure_records_assistant_counterexample :
    (invoke_agent (mkLumoAgent "p"
        (some (fun _ => Except.error GatewayError.networkFailure))) none "hi" 0).2.memory 0
      = [Msg.HumanMessage "hi", Msg.AIMessage thinkingCapApology] ∧
    Msg.isAssistant (Msg.AIMessage thinkingCapApology) = true ∧
    (invoke_agent (mkLumoAgent "p"
        (some (fun _ => Except.error GatewayError.networkFailure))) none "hi" 0).2.memory 0
      ≠ [Msg.HumanMessage "hi"] :=
  ⟨by rfl, by rfl, by decide⟩

/-- C1 (amended): when the gateway call inside `submit(c, text)` raises,
the history for `c` grows by exactly two entries, `User(text)` followed by
`Assistant(apology)` — the fixed apology is recorded as an Assistant
entry — and the value returned by `submit` equals that fixed apology
string; other conversations are untouched. -/
theorem submit_gateway_failure_appends_user_and_apology
    (a : LumoAgent) (g : Gateway) (text : String) (cid : ConversationId)
    (e : GatewayError) (h : a.llm = some g)
    (herr : g (Msg.SystemMessage a.system_prompt ::
        (a.memory cid ++ [Msg.HumanMessage text])) = Except.error e) :
    (invoke_agent a none text cid).1 = thinkingCapApology ∧
    (invoke_agent a none text cid).2.memory cid =
      a.memory cid ++ [Msg.HumanMessage text, Msg.AIMessage thinkingCapApology] ∧
    ∀ k, k ≠ cid → (invoke_agent a none text cid).2.memory k = a.memory k := by
  have h2 := invoke_agent_err a g h text cid e herr
  refine ⟨by rw [h2], by rw [h2]; simp [setMemory], fun k hk => ?_⟩
  rw [h2]; simp [setMemory, hk]

/-- Witness for the amended C1 at a concrete failing gateway. -/
theorem submit_gateway_failure_appends_user_and_apology_witness :
    (invoke_agent (mkLumoAgent "p"
        (some (fun _ => Except.error GatewayError.networkFailure))) none "bye" 7).1
      = thinkingCapApology ∧
    (invoke_agent (mkLumoAgent "p"
        (some (fun _ => Except.error GatewayError.networkFailure))) none "bye" 7).2.memory 7 =
      (mkLumoAgent "p"
        (some (fun _ => Except.error GatewayError.networkFailure))).memory 7 ++
        [Msg.HumanMessage "bye", Msg.AIMessage thinkingCapApology] ∧
    ∀ k, k ≠ 7 →
      (invoke_agent (mkLumoAgent "p"
        (some (fun _ => Except.error GatewayError.networkFailure))) none "bye" 7).2.memory k =
      (mkLumoAgent "p"
        (some (fun _ => Except.error GatewayError.networkFailure))).memory k :=
  submit_gateway_failure_appends_user_and_apology
    (mkLumoAgent "p" (some (fun _ => Except.error GatewayError.networkFailure)))
    (fun _ => Except.error GatewayError.networkFailure) "bye" 7
    GatewayError.networkFailure rfl rfl

/-- C2: when the gateway call inside `submit(c, text)` succeeds with
`Assistant(reply)`, the history for `c` grows by exactly two entries in
order `[User(text), Assistant(reply)]`, the value returned by `submit`
equals `reply`, and other conversations are untouched. -/
theorem submit_success_appends_user_assistant_pair
    (a : LumoAgent) (g : Gateway) (text : String) (cid : ConversationId)
    (reply : String) (h : a.llm = some g)
    (hok : g (Msg.SystemMessage a.system_prompt ::
        (a.memory cid ++ [Msg.HumanMessage text])) = Except.ok (Msg.AIMessage reply)) :
    (invoke_agent a none text cid).1 = reply ∧
    (invoke_agent a none text cid).2.memory cid =
      a.memory cid ++ [Msg.HumanMessage text, Msg.AIMessage reply] ∧
    ∀ k, k ≠ cid → (invoke_agent a none text cid).2.memory k = a.memory k := by
  have h2 := invoke_agent_ok a g h text cid reply hok
  refine ⟨by rw [h2], by rw [h2]; simp [setMemory], fun k hk => ?_⟩
  rw [h2]; simp [setMemory, hk]

/-- Witness for C2 at a concrete succeeding gateway. -/
theorem submit_success_appends_user_assistant_pair_witness :
    (invoke_agent (mkLumoAgent "p"
        (some (fun _ => Except.ok (Msg.AIMessage "Hi there, friend!")))) none "Hi" 0).1
      = "Hi there, friend!" ∧
    (invoke_agent (mkLumoAgent "p"
        (some (fun _ => Except.ok (Msg.AIMessage "Hi there, friend!")))) none "Hi" 0).2.memory 0 =
      (mkLumoAgent "p"
        (some (fun _ => Except.ok (Msg.AIMessage "Hi there, friend!")))).memory 0 ++
        [Msg.HumanMessage "Hi", Msg.AIMessage "Hi there, friend!"] ∧
    ∀ k, k ≠ 0 →
      (invoke_agent (mkLumoAgent "p"
        (some (fun _ => Except.ok (Msg.AIMessage "Hi there, friend!")))) none "Hi" 0).2.memory k =
      (mkLumoAgent "p"
        (some (fun _ => Except.ok (Msg.AIMessage "Hi there, friend!")))).memory k :=
  submit_success_appends_user_assistant_pair
    (mkLumoAgent "p" (some (fun _ => Except.ok (Msg.AIMessage "Hi there, friend!"))))
    (fun _ => Except.ok (Msg.AIMessage "Hi there, friend!")) "Hi" 0
    "Hi there, friend!" rfl rfl

/-- C5: whatever exception the gateway call raises — network failure,
malformed response, provider-side rejection, or any other exception — the
user-visible text returned by `submit` is the one fixed apology string. -/
theorem gateway_failures_collapse_to_single_apology
    (a : LumoAgent) (g : Gateway) (text : String) (cid : ConversationId)
    (e : GatewayError) (h : a.llm = some g)
    (herr : g (Msg.SystemMessage a.system_prompt ::
        (a.memory cid ++ [Msg.HumanMessage text])) = Except.error e) :
    (invoke_agent a none text cid).1 = thinkingCapApology := by
  rw [invoke_agent_err a g h text cid e herr]

/-- Witness for C5 at a concrete gateway raising a malformed-response
exception. -/
theorem gateway_failures_collapse_to_single_apology_witness :
    (invoke_agent (mkLumoAgent "q"
        (some (fun _ => Except.error GatewayError.malformedResponse))) none "story" 3).1
      = thinkingCapApology :=
  gateway_failures_collapse_to_single_apology
    (mkLumoAgent "q" (some (fun _ => Except.error GatewayError.malformedResponse)))
    (fun _ => Except.error GatewayError.malformedResponse) "story" 3
    GatewayError.malformedResponse rfl rfl

/-- C3: in the submit following any number of intervening persona updates
(the last one setting `x`), the stored persona is `x` and the gateway is
applied to exactly `[System(x)] ++ history(c) ++ [User(text)]` — the
latest value set, not any snapshot or cached value. -/
theorem submit_sends_latest_persona
    (a : LumoAgent) (g : Gateway) (updates : List String) (x text : String)
    (cid : ConversationId) (h : a.llm = some g) :
    (List.foldl update_system_prompt a (updates ++ [x])).system_prompt = x ∧
    appInvoke (List.foldl update_system_prompt a (updates ++ [x])) text cid =
      (let withUser := a.memory cid ++ [Msg.HumanMessage text]
       let final := withUser ++
         (match g (Msg.SystemMessage x :: withUser) with
          | Except.ok r => [r]
          | Except.error _ => [Msg.AIMessage thinkingCapApology])
       (final, setMemory (List.foldl update_system_prompt a (updates ++ [x])) cid final)) := by
  have hframe := foldl_update_frame a (updates ++ [x])
  have hsp := foldl_update_last a updates x
  refine ⟨hsp, ?_⟩
  have h2 := appInvoke_some (List.foldl update_system_prompt a (updates ++ [x])) g
    (by rw [hframe.2, h]) text cid
  rw [h2, hframe.1, hsp]

/-- Witness for C3: two intervening updates, then one setting the persona
to "third"; the gateway receives `System "third"` first. -/
theorem submit_sends_latest_persona_witness :
    (List.foldl update_system_prompt
        (mkLumoAgent "orig" (some (fun _ => Except.ok (Msg.AIMessage "ok!"))))
        (["first", "second"] ++ ["third"])).system_prompt = "third" ∧
    appInvoke (List.foldl update_system_prompt
        (mkLumoAgent "orig" (some (fun _ => Except.ok (Msg.AIMessage "ok!"))))
        (["first", "second"] ++ ["third"])) "play" 2 =
      (let withUser :=
        (mkLumoAgent "orig" (some (fun _ => Except.ok (Msg.AIMessage "ok!")))).memory 2 ++
          [Msg.HumanMessage "play"]
       let final := withUser ++
         (match (fun _ => Except.ok (Msg.AIMessage "ok!") : Gateway)
             (Msg.SystemMessage "third" :: withUser) with
          | Except.ok r => [r]
          | Except.error _ => [Msg.AIMessage thinkingCapApology])
       (final, setMemory (List.foldl update_system_prompt
          (mkLumoAgent "orig" (some (fun _ => Except.ok (Msg.AIMessage "ok!"))))
          (["first", "second"] ++ ["third"])) 2 final)) :=
  submit_sends_latest_persona
    (mkLumoAgent "orig" (some (fun _ => Except.ok (Msg.AIMessage "ok!"))))
    (fun _ => Except.ok (Msg.AIMessage "ok!")) ["first", "second"] "third" "play" 2 rfl

/-- C8: setting a new persona `x` leaves every stored message of every
conversation unchanged (and the llm handle), and the next submit applies
the gateway to an outbound list headed by `System(x)` — the new value
takes effect only from the next call. -/
theorem update_persona_preserves_history
    (a : LumoAgent) (x : String) (g : Gateway) (text : String)
    (cid : ConversationId) (h : a.llm = some g) :
    (∀ k, (update_system_prompt a x).memory k = a.memory k) ∧
    (update_system_prompt a x).llm = a.llm ∧
    appInvoke (update_system_prompt a x) text cid =
      (let withUser := a.memory cid ++ [Msg.HumanMessage text]
       let final := withUser ++
         (match g (Msg.SystemMessage x :: withUser) with
          | Except.ok r => [r]
          | Except.error _ => [Msg.AIMessage thinkingCapApology])
       (final, setMemory (update_system_prompt a x) cid final)) :=
  ⟨fun _ => rfl, rfl, appInvoke_some (update_system_prompt a x) g h text cid⟩

/-- Witness for C8 at a concrete agent and persona. -/
theorem update_persona_preserves_history_witness :
    (∀ k, (update_system_prompt
        (mkLumoAgent "old" (some (fun _ => Except.ok (Msg.AIMessage "yo"))))
        "new").memory k =
      (mkLumoAgent "old" (some (fun _ => Except.ok (Msg.AIMessage "yo")))).memory k) ∧
    (update_system_prompt
        (mkLumoAgent "old" (some (fun _ => Except.ok (Msg.AIMessage "yo"))))
        "new").llm =
      (mkLumoAgent "old" (some (fun _ => Except.ok (Msg.AIMessage "yo")))).llm ∧
    appInvoke (update_system_prompt
        (mkLumoAgent "old" (some (fun _ => Except.ok (Msg.AIMessage "yo"))))
        "new") "hey" 1 =
      (let withUser :=
        (mkLumoAgent "old" (some (fun _ => Except.ok (Msg.AIMessage "yo")))).memory 1 ++
          [Msg.HumanMessage "hey"]
       let final := withUser ++
         (match (fun _ => Except.ok (Msg.AIMessage "yo") : Gateway)
             (Msg.SystemMessage "new" :: withUser) with
          | Except.ok r => [r]
          | Except.error _ => [Msg.AIMessage thinkingCapApology])
       (final, setMemory (update_system_prompt
          (mkLumoAgent "old" (some (fun _ => Except.ok (Msg.AIMessage "yo"))))
          "new") 1 final)) :=
  update_persona_preserves_history
    (mkLumoAgent "old" (some (fun _ => Except.ok (Msg.AIMessage "yo"))))
    "new" (fun _ => Except.ok (Msg.AIMessage "yo")) "hey" 1 rfl

/-- C10: `invoke_agent` is a total function of its inputs (the Python
method catches every exception), and its returned display text is fully
characterized: the unavailable fallback when the llm is absent, the wobbly
fallback when the graph machinery raised, the reply content when the
gateway returned an `AIMessage`, the quiet fallback when it returned a
non-assistant message, and the thinking-cap apology when the gateway call
raised — for every conversation id and every user input, the empty string
included. -/
theorem invoke_agent_total_cases
    (a : LumoAgent) (exc : Option String) (text : String) (cid : ConversationId) :
    (invoke_agent a exc text cid).1 =
      match a.llm with
      | none => unavailableMessage
      | some g =>
        match exc with
        | some _ => wobblyMessage
        | none =>
          match g (Msg.SystemMessage a.system_prompt ::
              (a.memory cid ++ [Msg.HumanMessage text])) with
          | Except.ok (Msg.AIMessage s) => s
          | Except.ok _ => quietMessage
          | Except.error _ => thinkingCapApology := by
  cases hl : a.llm with
  | none => simp [invoke_agent, hl]
  | some g =>
    cases exc with
    | some e => simp [invoke_agent, hl]
    | none =>
      cases hres : g (Msg.SystemMessage a.system_prompt ::
          (a.memory cid ++ [Msg.HumanMessage text])) with
      | ok r =>
        cases r <;>
          simp [invoke_agent, hl, appInvoke, call_toy_llm, hres, List.getLast?_concat]
      | error e =>
        simp [invoke_agent, hl, appInvoke, call_toy_llm, hres, List.getLast?_concat]

/-- C9: reading the persona immediately after setting it to `x` returns
exactly `x`, for arbitrary `x` and arbitrary prior agent state — the
replacement is unconditional, with no validation or transformation. -/
theorem persona_set_then_get (a : LumoAgent) (x : String) :
    (update_system_prompt a x).system_prompt = x := rfl

/-- Each `invoke_agent` call extends each conversation's checkpoint (it is
a prefix of the new one); nothing is removed or modified. -/
theorem invoke_agent_memory_prefix (a : LumoAgent) (exc : Option String)
    (text : String) (cid k : ConversationId) :
    a.memory k <+: (invoke_agent a exc text cid).2.memory k := by
  rcases invoke_agent_memory a exc text cid k with h | ⟨hk, _, _, h⟩
  · rw [h]
  · subst hk
    rw [h]
    exact ⟨[Msg.HumanMessage text] ++ call_toy_llm a (a.memory k ++ [Msg.HumanMessage text]),
      by simp [List.append_assoc]⟩

/-- One `invoke_agent` call preserves the no-System invariant of every
conversation's checkpoint, given the gateway contract (successful calls
return assistant messages). -/
theorem invoke_agent_no_system_step (a : LumoAgent) (g : Gateway)
    (hll : a.llm = some g) (hg : GatewayHonest g) (exc : Option String)
    (text : String) (cid k : ConversationId)
    (hclean : ∀ m ∈ a.memory k, m.isSystem = false) :
    ∀ m ∈ (invoke_agent a exc text cid).2.memory k, m.isSystem = false := by
  rcases invoke_agent_memory a exc text cid k with h | ⟨hk, _, _, h⟩
  · rw [h]; exact hclean
  · subst hk
    rw [h]
    intro m hm
    rcases List.mem_append.1 hm with hm | hm
    · rcases List.mem_append.1 hm with hm | hm
      · exact hclean m hm
      · simp at hm; subst hm; rfl
    · simp only [call_toy_llm, hll] at hm
      split at hm
      · rename_i r hres
        simp at hm; subst hm
        obtain ⟨s, rfl⟩ := hg _ _ hres
        rfl
      · simp at hm; subst hm; rfl

/-- C4: over every sequence of submit calls (successful, failing, or hit
by a graph-machinery exception), each conversation's stored history grows
monotonically — the old history is a prefix of the new one, so no entry is
removed or modified — and, starting from a history free of System entries,
it never contains a System-tagged entry, given the gateway contract that
successful calls return assistant messages. -/
theorem history_no_system_and_monotone
    (a : LumoAgent) (turns : List TurnEvent) (k : ConversationId)
    (hHonest : ∀ g, a.llm = some g → GatewayHonest g)
    (hClean : ∀ m ∈ a.memory k, m.isSystem = false) :
    (a.memory k <+: (runTurns a turns).memory k) ∧
    (∀ m ∈ (runTurns a turns).memory k, m.isSystem = false) := by
  induction turns generalizing a with
  | nil => exact ⟨List.prefix_refl _, hClean⟩
  | cons e rest ih =>
    simp only [runTurns]
    have hstep_pre := invoke_agent_memory_prefix a e.1 e.2.1 e.2.2 k
    have hstep_clean :
        ∀ m ∈ (invoke_agent a e.1 e.2.1 e.2.2).2.memory k, m.isSystem = false := by
      cases hl : a.llm with
      | none =>
        rcases invoke_agent_memory a e.1 e.2.1 e.2.2 k with h | ⟨_, habs, _, _⟩
        · rw [h]; exact hClean
        · exact absurd hl habs
      | some g =>
        exact invoke_agent_no_system_step a g hl (hHonest g hl) e.1 e.2.1 e.2.2 k hClean
    have hllm := (invoke_agent_frame a e.1 e.2.1 e.2.2).1
    have ih' := ih (invoke_agent a e.1 e.2.1 e.2.2).2
      (fun g hgl => hHonest g (by rw [hllm] at hgl; exact hgl)) hstep_clean
    exact ⟨hstep_pre.trans ih'.1, ih'.2⟩

/-- Witness for C4: two successful turns from a fresh agent. -/
theorem history_no_system_and_monotone_witness :
    ((mkLumoAgent "p" (some (fun _ => Except.ok (Msg.AIMessage "yo")))).memory 0 <+:
      (runTurns (mkLumoAgent "p" (some (fun _ => Except.ok (Msg.AIMessage "yo"))))
        [(none, "hi", 0), (none, "again", 0)]).memory 0) ∧
    (∀ m ∈ (runTurns (mkLumoAgent "p" (some (fun _ => Except.ok (Msg.AIMessage "yo"))))
        [(none, "hi", 0), (none, "again", 0)]).memory 0, m.isSystem = false) :=
  history_no_system_and_monotone
    (mkLumoAgent "p" (some (fun _ => Except.ok (Msg.AIMessage "yo"))))
    [(none, "hi", 0), (none, "again", 0)] 0
    (fun g hg => by
      injection hg with hg
      subst hg
      intro inp r hr
      injection hr with hr
      exact ⟨"yo", hr.symm⟩)
    (fun m hm => by simp [mkLumoAgent] at hm)

/-- Unfold one reset when the fresh agent's llm initialized: transcript
cleared then set to the greeting, new id drawn from the allocator, fresh
agent run once on the icebreaker "Hello!". -/
theorem resetLumo_some (s : SessionState) (g : Gateway) (exc : Option String) :
    resetLumo s (some g) exc =
      { s with
        messages := [("assistant",
          (invoke_agent (mkLumoAgent s.current_system_prompt (some g))
            exc "Hello!" s.uuidCounter).1)]
        conversation_id := s.uuidCounter
        agent := (invoke_agent (mkLumoAgent s.current_system_prompt (some g))
          exc "Hello!" s.uuidCounter).2
        uuidCounter := s.uuidCounter + 1
        issued := s.uuidCounter :: s.issued } := rfl

/-- C6: a reset draws a conversation id distinct from every previously
issued one (the uuid allocator invariant is preserved for all later
resets), the fresh agent's history for the new id is empty before the
icebreaker completes, and after a successful icebreaker the new id's
history holds exactly one User/Assistant pair: the fixed greeting trigger
"Hello!" and the model's opening reply, which is also shown in the UI
transcript. -/
theorem reset_fresh_id_empty_then_one_pair
    (s : SessionState) (g : Gateway) (reply : String)
    (hfresh : ∀ i ∈ s.issued, i < s.uuidCounter)
    (hok : g [Msg.SystemMessage s.current_system_prompt, Msg.HumanMessage "Hello!"]
      = Except.ok (Msg.AIMessage reply)) :
    (resetLumo s (some g) none).conversation_id ∉ s.issued ∧
    (∀ k, (mkLumoAgent s.current_system_prompt (some g)).memory k = []) ∧
    (resetLumo s (some g) none).agent.memory (resetLumo s (some g) none).conversation_id
      = [Msg.HumanMessage "Hello!", Msg.AIMessage reply] ∧
    (resetLumo s (some g) none).messages = [("assistant", reply)] ∧
    (∀ i ∈ (resetLumo s (some g) none).issued,
      i < (resetLumo s (some g) none).uuidCounter) := by
  have hinv := invoke_agent_ok (mkLumoAgent s.current_system_prompt (some g)) g rfl
    "Hello!" s.uuidCounter reply hok
  rw [resetLumo_some]
  refine ⟨fun hmem => lt_irrefl _ (hfresh _ hmem), fun k => rfl, ?_, ?_, ?_⟩
  · rw [hinv]; simp [setMemory, mkLumoAgent]
  · simp [hinv]
  · intro i hi
    rcases List.mem_cons.1 hi with h | h
    · subst h; exact Nat.lt_succ_self _
    · exact Nat.lt_succ_of_lt (hfresh _ h)

/-- Witness for C6 at a concrete session whose allocator has issued id 0
and whose gateway greets with "Welcome!". -/
theorem reset_fresh_id_empty_then_one_pair_witness :
    (resetLumo ⟨0, "kind persona",
        mkLumoAgent "kind persona" (some (fun _ => Except.ok (Msg.AIMessage "Welcome!"))),
        [], 1, [0]⟩
      (some (fun _ => Except.ok (Msg.AIMessage "Welcome!"))) none).conversation_id ∉
        ([0] : List ConversationId) ∧
    (∀ k, (mkLumoAgent "kind persona"
        (some (fun _ => Except.ok (Msg.AIMessage "Welcome!")))).memory k = []) ∧
    (resetLumo ⟨0, "kind persona",
        mkLumoAgent "kind persona" (some (fun _ => Except.ok (Msg.AIMessage "Welcome!"))),
        [], 1, [0]⟩
      (some (fun _ => Except.ok (Msg.AIMessage "Welcome!"))) none).agent.memory
        (resetLumo ⟨0, "kind persona",
            mkLumoAgent "kind persona" (some (fun _ => Except.ok (Msg.AIMessage "Welcome!"))),
            [], 1, [0]⟩
          (some (fun _ => Except.ok (Msg.AIMessage "Welcome!"))) none).conversation_id
      = [Msg.HumanMessage "Hello!", Msg.AIMessage "Welcome!"] ∧
    (resetLumo ⟨0, "kind persona",
        mkLumoAgent "kind persona" (some (fun _ => Except.ok (Msg.AIMessage "Welcome!"))),
        [], 1, [0]⟩
      (some (fun _ => Except.ok (Msg.AIMessage "Welcome!"))) none).messages
      = [("assistant", "Welcome!")] ∧
    (∀ i ∈ (resetLumo ⟨0, "kind persona",
        mkLumoAgent "kind persona" (some (fun _ => Except.ok (Msg.AIMessage "Welcome!"))),
        [], 1, [0]⟩
      (some (fun _ => Except.ok (Msg.AIMessage "Welcome!"))) none).issued,
      i < (resetLumo ⟨0, "kind persona",
        mkLumoAgent "kind persona" (some (fun _ => Except.ok (Msg.AIMessage "Welcome!"))),
        [], 1, [0]⟩
      (some (fun _ => Except.ok (Msg.AIMessage "Welcome!"))) none).uuidCounter) :=
  reset_fresh_id_empty_then_one_pair
    ⟨0, "kind persona",
      mkLumoAgent "kind persona" (some (fun _ => Except.ok (Msg.AIMessage "Welcome!"))),
      [], 1, [0]⟩
    (fun _ => Except.ok (Msg.AIMessage "Welcome!")) "Welcome!"
    (by decide) rfl

/-- C7: when LLM initialization fails — the gemini credential missing from
the secrets store, or the startup test call to the gateway raising — the
initializer yields `none`, and the session startup halts with the visible
fatal error before any turn: `startSession` returns the error and performs
no submit, and the fresh agent's history store is empty for every
conversation id. -/
theorem init_failure_halts_before_any_turn
    (g : Gateway) (e : GatewayError) (exc : Option String) (counter : Nat)
    (herr : g [Msg.HumanMessage "Hello!"] = Except.error e) :
    initialize_llm false g = none ∧
    initialize_llm true g = none ∧
    startSession (initialize_llm true g) exc counter = Except.error fatalInitError ∧
    startSession none exc counter = Except.error fatalInitError ∧
    (∀ k, (mkLumoAgent DEFAULT_AI_TOY_SYSTEM_PROMPT none).memory k = []) := by
  have h1 : initialize_llm true g = none := by simp [initialize_llm, herr]
  exact ⟨rfl, h1, by rw [h1]; rfl, rfl, fun k => rfl⟩

/-- Witness for C7 with an unreachable gateway. -/
theorem init_failure_halts_before_any_turn_witness :
    initialize_llm false (fun _ => Except.error GatewayError.networkFailure) = none ∧
    initialize_llm true (fun _ => Except.error GatewayError.networkFailure) = none ∧
    startSession (initialize_llm true (fun _ => Except.error GatewayError.networkFailure))
      none 5 = Except.error fatalInitError ∧
    startSession none none 5 = Except.error fatalInitError ∧
    (∀ k, (mkLumoAgent DEFAULT_AI_TOY_SYSTEM_PROMPT none).memory k = []) :=
  init_failure_halts_before_any_turn
    (fun _ => Except.error GatewayError.networkFailure)
    GatewayError.networkFailure none 5 rfl

end LumoMemory
